import Mathlib

/-!
Verification of the parametric insole-geometry generator
(`computeInsoleGeometry` in `src/pages/OrderPage.tsx`).

The generator builds a closed Bézier outline of the insole footprint from
`width` and `length`, extrudes it by `thickness` into a capped solid, and,
when the detailed-relief flag is set, remaps the height of the top-face
vertices by a piecewise-linear thickness profile with a localized heel-cup
carve, then recomputes the lighting normals.

Real-number quantities are embedded as rationals; the decimal constants of
the source (0.3, 0.15, 1e-6, ...) are the exact rationals 3/10, 15/100,
1/1000000, and so on.
-/

namespace Insole

/-- A 2D point of the outline plane: x across the foot, z along its length. -/
@[ext]
structure P2 where
  x : ℚ
  z : ℚ
  deriving DecidableEq, Repr

/-- A 3D mesh vertex; y is the height (extrusion) coordinate. -/
@[ext]
structure P3 where
  x : ℚ
  y : ℚ
  z : ℚ
  deriving DecidableEq, Repr

/-- A cubic Bézier segment: start point, two control points, end point.
This is the data of one `shape.bezierCurveTo` call together with the
current point it starts from. -/
@[ext]
structure Cubic where
  p0 : P2
  p1 : P2
  p2 : P2
  p3 : P2
  deriving DecidableEq, Repr

/-- Evaluation of a cubic Bézier segment at parameter u ∈ [0,1]. -/
def bezier (s : Cubic) (u : ℚ) : P2 :=
  ⟨(1 - u) ^ 3 * s.p0.x + 3 * (1 - u) ^ 2 * u * s.p1.x
      + 3 * (1 - u) * u ^ 2 * s.p2.x + u ^ 3 * s.p3.x,
   (1 - u) ^ 3 * s.p0.z + 3 * (1 - u) ^ 2 * u * s.p1.z
      + 3 * (1 - u) * u ^ 2 * s.p2.z + u ^ 3 * s.p3.z⟩

/-- Heel → Arch: from heel (0,0) to arch (-0.3·halfWidth, 0.4·length) with
controls (-0.1·halfWidth, 0.1·length) and (-0.3·halfWidth, 0.3·length). -/
def segHeelArch (width length : ℚ) : Cubic :=
  ⟨⟨0, 0⟩, ⟨-(width / 2) * (1/10), length * (1/10)⟩,
   ⟨-(width / 2) * (3/10), length * (3/10)⟩, ⟨-(width / 2) * (3/10), length * (4/10)⟩⟩

/-- Arch → Ball: to ball (0.5·halfWidth, 0.7·length) with controls
(-0.5·halfWidth, 0.5·length) and (0.5·halfWidth, 0.6·length). -/
def segArchBall (width length : ℚ) : Cubic :=
  ⟨⟨-(width / 2) * (3/10), length * (4/10)⟩, ⟨-(width / 2) * (5/10), length * (5/10)⟩,
   ⟨(width / 2) * (5/10), length * (6/10)⟩, ⟨(width / 2) * (5/10), length * (7/10)⟩⟩

/-- Ball → Toe: to toe (0, length) with controls (0.5·halfWidth, 0.8·length)
and (0.2·halfWidth, 0.9·length). -/
def segBallToe (width length : ℚ) : Cubic :=
  ⟨⟨(width / 2) * (5/10), length * (7/10)⟩, ⟨(width / 2) * (5/10), length * (8/10)⟩,
   ⟨(width / 2) * (2/10), length * (9/10)⟩, ⟨0, length⟩⟩

/-- Toe → opposite Ball (mirror in x). -/
def segToeBallM (width length : ℚ) : Cubic :=
  ⟨⟨0, length⟩, ⟨-(width / 2) * (2/10), length * (9/10)⟩,
   ⟨-(width / 2) * (5/10), length * (8/10)⟩, ⟨-(width / 2) * (5/10), length * (7/10)⟩⟩

/-- Opposite Ball → opposite Arch. -/
def segBallMArchM (width length : ℚ) : Cubic :=
  ⟨⟨-(width / 2) * (5/10), length * (7/10)⟩, ⟨-(width / 2) * (5/10), length * (6/10)⟩,
   ⟨(width / 2) * (5/10), length * (5/10)⟩, ⟨(width / 2) * (3/10), length * (4/10)⟩⟩

/-- Opposite Arch → Heel, closing the outline. -/
def segArchMHeel (width length : ℚ) : Cubic :=
  ⟨⟨(width / 2) * (3/10), length * (4/10)⟩, ⟨(width / 2) * (3/10), length * (3/10)⟩,
   ⟨(width / 2) * (1/10), length * (1/10)⟩, ⟨0, 0⟩⟩

/-- The six Bézier segments of the outline, in the order of the source:
heel → arch → ball → toe → mirrored ball → mirrored arch → heel. -/
def outlineSegments (width length : ℚ) : List Cubic :=
  [segHeelArch width length, segArchBall width length, segBallToe width length,
   segToeBallM width length, segBallMArchM width length, segArchMHeel width length]

/-- Tessellation of one segment into N+1 uniformly spaced samples
(parameter values i/N, i = 0..N). The count is the same for every
segment, as the contour-building contract requires. -/
def sampleSegment (N : ℕ) (s : Cubic) : List P2 :=
  (List.range (N + 1)).map (fun i : ℕ => bezier s ((i : ℚ) / (N : ℚ)))

/-- The sampled outline: the six segments tessellated in order. -/
def outlineSamples (N : ℕ) (width length : ℚ) : List P2 :=
  (outlineSegments width length).flatMap (sampleSegment N)

/-- State of the normal buffer: the flat per-face normals the extruder
leaves behind, or per-vertex averaged normals produced by a
computeVertexNormals pass. -/
inductive NormalState where
  | extruderFlat
  | vertexAveraged
  deriving DecidableEq, Repr

/-- A mesh: vertex positions grouped as bottom cap, top cap and side
walls, a triangle index list, and the state of the normal buffer.
The full vertex buffer is bottom ++ top ++ side. -/
@[ext]
structure Mesh where
  bottom : List P3
  top : List P3
  side : List P3
  indices : List (ℕ × ℕ × ℕ)
  normals : NormalState
  deriving DecidableEq, Repr

/-- The whole vertex buffer of a mesh, in order. -/
def Mesh.positions (m : Mesh) : List P3 :=
  m.bottom ++ m.top ++ m.side

/-- Fan triangulation of a cap of n ring vertices starting at index off. -/
def fanIndices (n off : ℕ) : List (ℕ × ℕ × ℕ) :=
  (List.range (n - 2)).map (fun i => (off, off + i + 1, off + i + 2))

/-- Side-wall triangles: two per quad over the 2n duplicated ring
vertices starting at index off. -/
def wallIndices (n off : ℕ) : List (ℕ × ℕ × ℕ) :=
  (List.range n).flatMap (fun i =>
    [(off + 2 * i, off + 2 * i + 1, off + (2 * i + 2) % (2 * n)),
     (off + 2 * i + 1, off + (2 * i + 3) % (2 * n), off + (2 * i + 2) % (2 * n))])

/-- Index list of the extruded solid for an outline of n samples. -/
def extrudeIndices (n : ℕ) : List (ℕ × ℕ × ℕ) :=
  fanIndices n 0 ++ fanIndices n n ++ wallIndices n (2 * n)

/-- Modelled from the spec: the Extruder stage (the source delegates it to
the external three.js ExtrudeGeometry with depth = thickness,
bevelEnabled = false, steps = 1, which is not part of this repository).
Per the contract, it sweeps the outline by thickness into a capped solid:
a bottom cap at y = 0, a top cap at y = thickness, and side walls that
duplicate the outline ring x/z at both heights; normals start out flat
per face. -/
def extrude (outline : List P2) (thickness : ℚ) : Mesh :=
  { bottom := outline.map (fun p => ⟨p.x, 0, p.z⟩)
    top := outline.map (fun p => ⟨p.x, thickness, p.z⟩)
    side := outline.flatMap (fun p => [⟨p.x, 0, p.z⟩, ⟨p.x, thickness, p.z⟩])
    indices := extrudeIndices outline.length
    normals := NormalState.extruderFlat }

/-- THREE.MathUtils.clamp value lo hi. -/
def clamp (v lo hi : ℚ) : ℚ :=
  max lo (min v hi)

/-- THREE.MathUtils.lerp a b u = a + (b - a)·u. -/
def lerp (a b u : ℚ) : ℚ :=
  a + (b - a) * u

/-- The piecewise thickness profile of the sculptor, exactly as in the
source: heelThick = 0.8·thickness, archThick = 1.0·thickness,
foreThick = 0.6·thickness, toeThick = 0.2·thickness, interpolated by
t over the breakpoints 0.3 and 0.7. -/
def profileTargetY (thickness t : ℚ) : ℚ :=
  let heelThick := thickness * (8/10)
  let archThick := thickness * 1
  let foreThick := thickness * (6/10)
  let toeThick := thickness * (2/10)
  if t < 3/10 then lerp heelThick archThick (t / (3/10))
  else if t < 7/10 then lerp archThick foreThick ((t - 3/10) / (4/10))
  else lerp foreThick toeThick ((t - 7/10) / (3/10))

/-- The full height the sculptor writes at footprint position (x, z):
the profile value at t = clamp(z/length, 0, 1), minus the heel-cup
depth heelCupDepth·(1 - min(|x|/halfWidth, 1)) when t < 0.15, with
heelCupDepth = 0.10·thickness. -/
def sculptTargetY (width length thickness x z : ℚ) : ℚ :=
  let halfWidth := width / 2
  let t := clamp (z / length) 0 1
  let base := profileTargetY thickness t
  if t < 15/100 then
    base - thickness * (1/10) * (1 - min (|x| / halfWidth) 1)
  else base

/-- One iteration of the sculpting loop: a vertex is rewritten exactly
when its height is within tol of thickness (the top-face test of the
source; tol is 1e-6 in the current copy, 1e-5 in the older copy). -/
def sculptVertex (tol width length thickness : ℚ) (v : P3) : P3 :=
  if |v.y - thickness| < tol then
    ⟨v.x, sculptTargetY width length thickness v.x v.z, v.z⟩
  else v

/-- The sculpting loop over the whole vertex buffer; the index list is
untouched. -/
def sculptMesh (tol width length thickness : ℚ) (m : Mesh) : Mesh :=
  { bottom := m.bottom.map (sculptVertex tol width length thickness)
    top := m.top.map (sculptVertex tol width length thickness)
    side := m.side.map (sculptVertex tol width length thickness)
    indices := m.indices
    normals := m.normals }

/-- geom.computeVertexNormals(): replaces the normal buffer with
per-vertex averaged normals; positions and indices are untouched. -/
def recomputeNormals (m : Mesh) : Mesh :=
  { m with normals := NormalState.vertexAveraged }

/-- The input record of computeInsoleGeometry. -/
structure InsoleParams where
  width : ℚ
  length : ℚ
  thickness : ℚ
  realistic : Bool
  deriving DecidableEq, Repr

/-- computeInsoleGeometry with the top-face tolerance left as a
parameter (the two copies of the function in the repository differ only
in this constant). N is the tessellation density per Bézier segment. -/
def computeInsoleGeometryWith (tol : ℚ) (N : ℕ) (p : InsoleParams) : Mesh :=
  let geom := extrude (outlineSamples N p.width p.length) p.thickness
  if p.realistic then
    recomputeNormals (sculptMesh tol p.width p.length p.thickness geom)
  else geom

/-- The current copy (src/pages/OrderPage.tsx): top-face tolerance 1e-6. -/
def computeInsoleGeometry (N : ℕ) (p : InsoleParams) : Mesh :=
  computeInsoleGeometryWith (1/1000000) N p

/-- The older copy (src/pages/old/OrderPaget.tsx): top-face tolerance 1e-5. -/
def computeInsoleGeometryOld (N : ℕ) (p : InsoleParams) : Mesh :=
  computeInsoleGeometryWith (1/100000) N p

/-- The pipeline run against an explicit external world state σ: the
source function reads and writes nothing outside the geometry it
allocates, so the world is threaded through unchanged past every stage. -/
def computeInsoleGeometryRun {σ : Type} (N : ℕ) (p : InsoleParams) (world : σ) :
    Mesh × σ :=
  let outline := outlineSamples N p.width p.length
  let geom := extrude outline p.thickness
  if p.realistic then
    (recomputeNormals (sculptMesh (1/1000000) p.width p.length p.thickness geom), world)
  else (geom, world)

/-! ### Mirror symmetry of the outline -/

/-- The mirror image of a cubic segment across x = 0, traversed backwards. -/
def mirrorRev (s : Cubic) : Cubic :=
  ⟨⟨-s.p3.x, s.p3.z⟩, ⟨-s.p2.x, s.p2.z⟩, ⟨-s.p1.x, s.p1.z⟩, ⟨-s.p0.x, s.p0.z⟩⟩

theorem mirrorRev_mirrorRev (s : Cubic) : mirrorRev (mirrorRev s) = s := by
  ext <;> simp [mirrorRev]

theorem bezier_mirrorRev (s : Cubic) (u : ℚ) :
    bezier (mirrorRev s) (1 - u) = ⟨-(bezier s u).x, (bezier s u).z⟩ := by
  ext <;> simp [bezier, mirrorRev] <;> ring

theorem mirrorRev_segHeelArch (w l : ℚ) :
    mirrorRev (segHeelArch w l) = segArchMHeel w l := by
  ext <;> simp [mirrorRev, segHeelArch, segArchMHeel]

theorem mirrorRev_segArchBall (w l : ℚ) :
    mirrorRev (segArchBall w l) = segBallMArchM w l := by
  ext <;> simp [mirrorRev, segArchBall, segBallMArchM]

theorem mirrorRev_segBallToe (w l : ℚ) :
    mirrorRev (segBallToe w l) = segToeBallM w l := by
  ext <;> simp [mirrorRev, segBallToe, segToeBallM]

/-- Mirrors of uniform samples of a segment are uniform samples of the
mirrored, reversed segment. -/
theorem mirror_mem_sampleSegment {N : ℕ} (hN : 0 < N) {s : Cubic} {p : P2}
    (hp : p ∈ sampleSegment N s) :
    (⟨-p.x, p.z⟩ : P2) ∈ sampleSegment N (mirrorRev s) := by
  simp only [sampleSegment, List.mem_map, List.mem_range] at hp ⊢
  obtain ⟨i, hi, rfl⟩ := hp
  have hiN : i ≤ N := Nat.le_of_lt_succ hi
  refine ⟨N - i, Nat.lt_succ_of_le (Nat.sub_le N i), ?_⟩
  have hNne : (N : ℚ) ≠ 0 := Nat.cast_ne_zero.mpr hN.ne'
  have hcast : ((N - i : ℕ) : ℚ) = (N : ℚ) - (i : ℚ) := Nat.cast_sub hiN
  have hdiv : ((N - i : ℕ) : ℚ) / (N : ℚ) = 1 - (i : ℚ) / (N : ℚ) := by
    rw [hcast]; field_simp
  rw [hdiv, bezier_mirrorRev]

theorem mirrorRev_segToeBallM (w l : ℚ) :
    mirrorRev (segToeBallM w l) = segBallToe w l := by
  rw [← mirrorRev_segBallToe, mirrorRev_mirrorRev]

theorem mirrorRev_segBallMArchM (w l : ℚ) :
    mirrorRev (segBallMArchM w l) = segArchBall w l := by
  rw [← mirrorRev_segArchBall, mirrorRev_mirrorRev]

theorem mirrorRev_segArchMHeel (w l : ℚ) :
    mirrorRev (segArchMHeel w l) = segHeelArch w l := by
  rw [← mirrorRev_segHeelArch, mirrorRev_mirrorRev]

/-- C6: for every valid Dimensions and every sampled point (x, z) of the
outline, the point (-x, z) is also present in the outline: the six Bézier
segments heel → arch → ball → toe → mirrored ball → mirrored arch → heel,
with their control points, form a curve that is its own mirror image
across x = 0. -/
theorem outline_symmetry (N : ℕ) (w l : ℚ) (hN : 0 < N) (hw : 0 < w) (hl : 0 < l) :
    ∀ p ∈ outlineSamples N w l, (⟨-p.x, p.z⟩ : P2) ∈ outlineSamples N w l := by
  intro p hp
  rcases List.mem_flatMap.mp hp with ⟨s, hs, hps⟩
  simp only [outlineSegments, List.mem_cons, List.not_mem_nil, or_false] at hs
  rcases hs with rfl | rfl | rfl | rfl | rfl | rfl
  · exact List.mem_flatMap.mpr ⟨segArchMHeel w l, by simp [outlineSegments],
      by rw [← mirrorRev_segHeelArch]; exact mirror_mem_sampleSegment hN hps⟩
  · exact List.mem_flatMap.mpr ⟨segBallMArchM w l, by simp [outlineSegments],
      by rw [← mirrorRev_segArchBall]; exact mirror_mem_sampleSegment hN hps⟩
  · exact List.mem_flatMap.mpr ⟨segToeBallM w l, by simp [outlineSegments],
      by rw [← mirrorRev_segBallToe]; exact mirror_mem_sampleSegment hN hps⟩
  · exact List.mem_flatMap.mpr ⟨segBallToe w l, by simp [outlineSegments],
      by rw [← mirrorRev_segToeBallM]; exact mirror_mem_sampleSegment hN hps⟩
  · exact List.mem_flatMap.mpr ⟨segArchBall w l, by simp [outlineSegments],
      by rw [← mirrorRev_segBallMArchM]; exact mirror_mem_sampleSegment hN hps⟩
  · exact List.mem_flatMap.mpr ⟨segHeelArch w l, by simp [outlineSegments],
      by rw [← mirrorRev_segArchMHeel]; exact mirror_mem_sampleSegment hN hps⟩

/-- Witness for outline_symmetry: at N = 1, width 1, length 2, the arch
sample (-3/20, 4/5) is in the outline and so is its mirror (3/20, 4/5). -/
theorem outline_symmetry_witness :
    (⟨-3/20, 4/5⟩ : P2) ∈ outlineSamples 1 1 2
    ∧ (⟨3/20, 4/5⟩ : P2) ∈ outlineSamples 1 1 2 := by
  have hmem : (⟨-3/20, 4/5⟩ : P2) ∈ outlineSamples 1 1 2 := by
    simp only [outlineSamples, outlineSegments, sampleSegment,
      show List.range 2 = [0, 1] from rfl, List.map_cons, List.map_nil,
      List.flatMap_cons, List.flatMap_nil, List.append_nil, List.mem_append, List.mem_cons,
      bezier, segHeelArch, segArchBall, segBallToe, segToeBallM, segBallMArchM, segArchMHeel,
      P2.mk.injEq, List.not_mem_nil, or_false]
    norm_num
  refine ⟨hmem, ?_⟩
  have h := outline_symmetry 1 1 2 (by norm_num) (by norm_num) (by norm_num)
    ⟨-3/20, 4/5⟩ hmem
  norm_num at h
  exact h

/-! ### The extruded solid and the two cap heights -/

/-- Every vertex of the extruded solid lies at one of the two cap heights. -/
theorem y_mem_extrude {o : List P2} {T : ℚ} {v : P3}
    (hv : v ∈ (extrude o T).positions) : v.y = 0 ∨ v.y = T := by
  simp only [Mesh.positions, extrude, List.mem_append, List.mem_map, List.mem_flatMap,
    List.mem_cons, List.not_mem_nil, or_false] at hv
  rcases hv with (⟨p, hp, rfl⟩ | ⟨p, hp, rfl⟩) | ⟨p, hp, hq⟩
  · exact Or.inl rfl
  · exact Or.inr rfl
  · rcases hq with rfl | rfl
    · exact Or.inl rfl
    · exact Or.inr rfl

/-- C1: for every valid Dimensions (width > 0, length > 0, thickness > 0)
with detailedRelief = false, every vertex of the mesh produced by extruding
the outline satisfies 0 ≤ y ≤ thickness, every top-cap vertex has
y = thickness exactly, and every bottom-cap vertex has y = 0 exactly. -/
theorem flat_extrude_invariant (N : ℕ) (w l T : ℚ) (hw : 0 < w) (hl : 0 < l) (hT : 0 < T) :
    (∀ v ∈ (computeInsoleGeometry N ⟨w, l, T, false⟩).positions, 0 ≤ v.y ∧ v.y ≤ T)
    ∧ (∀ v ∈ (computeInsoleGeometry N ⟨w, l, T, false⟩).top, v.y = T)
    ∧ (∀ v ∈ (computeInsoleGeometry N ⟨w, l, T, false⟩).bottom, v.y = 0) := by
  have hEq : computeInsoleGeometry N ⟨w, l, T, false⟩ = extrude (outlineSamples N w l) T := rfl
  refine ⟨?_, ?_, ?_⟩
  · intro v hv
    rw [hEq] at hv
    rcases y_mem_extrude hv with h | h <;> rw [h]
    · exact ⟨le_refl 0, hT.le⟩
    · exact ⟨hT.le, le_refl T⟩
  · intro v hv
    rw [hEq] at hv
    simp only [extrude, List.mem_map] at hv
    obtain ⟨p, hp, rfl⟩ := hv
    rfl
  · intro v hv
    rw [hEq] at hv
    simp only [extrude, List.mem_map] at hv
    obtain ⟨p, hp, rfl⟩ := hv
    rfl

/-- Witness for flat_extrude_invariant at N = 1, width 1, length 2,
thickness 2/5. -/
theorem flat_extrude_invariant_witness :
    (0:ℚ) < 1 ∧ (0:ℚ) < 2 ∧ (0:ℚ) < 2/5
    ∧ ((∀ v ∈ (computeInsoleGeometry 1 ⟨1, 2, 2/5, false⟩).positions, 0 ≤ v.y ∧ v.y ≤ 2/5)
       ∧ (∀ v ∈ (computeInsoleGeometry 1 ⟨1, 2, 2/5, false⟩).top, v.y = 2/5)
       ∧ (∀ v ∈ (computeInsoleGeometry 1 ⟨1, 2, 2/5, false⟩).bottom, v.y = 0)) :=
  ⟨by norm_num, by norm_num, by norm_num,
   flat_extrude_invariant 1 1 2 (2/5) (by norm_num) (by norm_num) (by norm_num)⟩

/-! ### Normal recomputation is tied to the sculpted path -/

/-- C7 counterexample: at the concrete valid input width 1, length 2,
thickness 2/5 with detailedRelief = false, the mesh keeps the extruder's
flat-per-face normals: computeVertexNormals is not invoked on the flat
path, contrary to the claim. -/
theorem flat_path_normals_kept :
    (computeInsoleGeometry 12 ⟨1, 2, 2/5, false⟩).normals = NormalState.extruderFlat
    ∧ NormalState.extruderFlat ≠ NormalState.vertexAveraged :=
  ⟨rfl, by simp⟩

/-- C7 amended: per-vertex normals are recomputed only on the sculpted
path; with detailedRelief = false the mesh keeps the extruder's initial
normals, with detailedRelief = true the normal buffer is replaced. -/
theorem normals_recomputed_only_when_sculpting (N : ℕ) (w l T : ℚ) :
    (computeInsoleGeometry N ⟨w, l, T, false⟩).normals = NormalState.extruderFlat
    ∧ (computeInsoleGeometry N ⟨w, l, T, true⟩).normals = NormalState.vertexAveraged :=
  ⟨rfl, rfl⟩

/-! ### Purity of the pipeline -/

/-- C8: the pipeline is a referentially transparent function of the input
tuple: its output does not depend on the external world state, the world
state is returned unchanged, and the result is the same mesh on every run
with the same parameters. -/
theorem pipeline_referentially_transparent {σ : Type} (N : ℕ) (p : InsoleParams) (w1 w2 : σ) :
    (computeInsoleGeometryRun N p w1).1 = (computeInsoleGeometryRun N p w2).1
    ∧ (computeInsoleGeometryRun N p w1).2 = w1
    ∧ (computeInsoleGeometryRun N p w1).1 = computeInsoleGeometry N p := by
  rcases p with ⟨w, l, T, r⟩
  cases r <;> exact ⟨rfl, rfl, rfl⟩

/-! ### What the sculpting loop touches -/

theorem sculptVertex_x (tol w l T : ℚ) (v : P3) : (sculptVertex tol w l T v).x = v.x := by
  unfold sculptVertex
  split <;> rfl

theorem sculptVertex_z (tol w l T : ℚ) (v : P3) : (sculptVertex tol w l T v).z = v.z := by
  unfold sculptVertex
  split <;> rfl

theorem sculptVertex_of_far (tol w l T : ℚ) (v : P3) (h : ¬ |v.y - T| < tol) :
    sculptVertex tol w l T v = v := by
  unfold sculptVertex
  rw [if_neg h]

theorem sculptVertex_of_near (tol w l T : ℚ) (v : P3) (h : |v.y - T| < tol) :
    sculptVertex tol w l T v = ⟨v.x, sculptTargetY w l T v.x v.z, v.z⟩ := by
  unfold sculptVertex
  rw [if_pos h]

theorem sculptMesh_positions (tol w l T : ℚ) (m : Mesh) :
    (sculptMesh tol w l T m).positions = m.positions.map (sculptVertex tol w l T) := by
  simp [sculptMesh, Mesh.positions, List.map_append]

/-- C5: toggling detailedRelief from false to true changes only the
Y-coordinates of vertices whose y equals thickness within the top-face
tolerance (and the normal buffer); every vertex's x and z coordinates, the
vertex count, and the index list are unchanged. -/
theorem topology_stability (N : ℕ) (w l T : ℚ) (hw : 0 < w) (hl : 0 < l) (hT : 0 < T) :
    (computeInsoleGeometry N ⟨w, l, T, true⟩).indices
        = (computeInsoleGeometry N ⟨w, l, T, false⟩).indices
    ∧ (computeInsoleGeometry N ⟨w, l, T, true⟩).positions.length
        = (computeInsoleGeometry N ⟨w, l, T, false⟩).positions.length
    ∧ List.Forall₂
        (fun a b : P3 => a.x = b.x ∧ a.z = b.z ∧ (¬ |b.y - T| < 1/1000000 → a.y = b.y))
        (computeInsoleGeometry N ⟨w, l, T, true⟩).positions
        (computeInsoleGeometry N ⟨w, l, T, false⟩).positions := by
  have hpos : (computeInsoleGeometry N ⟨w, l, T, true⟩).positions
      = (computeInsoleGeometry N ⟨w, l, T, false⟩).positions.map
          (sculptVertex (1/1000000) w l T) := by
    show (sculptMesh (1/1000000) w l T (extrude (outlineSamples N w l) T)).positions
        = (extrude (outlineSamples N w l) T).positions.map (sculptVertex (1/1000000) w l T)
    exact sculptMesh_positions _ _ _ _ _
  refine ⟨rfl, ?_, ?_⟩
  · rw [hpos, List.length_map]
  · rw [hpos, List.forall₂_map_left_iff]
    refine List.forall₂_same.mpr fun v hv => ?_
    exact ⟨sculptVertex_x _ _ _ _ _, sculptVertex_z _ _ _ _ _,
      fun h => by rw [sculptVertex_of_far _ _ _ _ _ h]⟩

/-- Witness for topology_stability at N = 1, width 1, length 2,
thickness 2/5. -/
theorem topology_stability_witness :
    (0:ℚ) < 1 ∧ (0:ℚ) < 2 ∧ (0:ℚ) < 2/5
    ∧ ((computeInsoleGeometry 1 ⟨1, 2, 2/5, true⟩).indices
          = (computeInsoleGeometry 1 ⟨1, 2, 2/5, false⟩).indices
       ∧ (computeInsoleGeometry 1 ⟨1, 2, 2/5, true⟩).positions.length
          = (computeInsoleGeometry 1 ⟨1, 2, 2/5, false⟩).positions.length
       ∧ List.Forall₂
          (fun a b : P3 =>
            a.x = b.x ∧ a.z = b.z ∧ (¬ |b.y - (2:ℚ)/5| < 1/1000000 → a.y = b.y))
          (computeInsoleGeometry 1 ⟨1, 2, 2/5, true⟩).positions
          (computeInsoleGeometry 1 ⟨1, 2, 2/5, false⟩).positions) :=
  ⟨by norm_num, by norm_num, by norm_num,
   topology_stability 1 1 2 (2/5) (by norm_num) (by norm_num) (by norm_num)⟩

/-! ### The heel-cup extremum -/

/-- The heel anchor (0, 0) is always among the outline samples. -/
theorem heel_mem_outlineSamples (N : ℕ) (w l : ℚ) :
    (⟨0, 0⟩ : P2) ∈ outlineSamples N w l := by
  refine List.mem_flatMap.mpr ⟨segHeelArch w l, by simp [outlineSegments], ?_⟩
  simp only [sampleSegment, List.mem_map]
  refine ⟨0, List.mem_range.mpr (Nat.succ_pos N), ?_⟩
  norm_num [bezier, segHeelArch]

/-- C3: for width = 1, length = 2, thickness = 0.4, detailedRelief = true,
the top-face vertex at x = 0, z = 0 ends with
y = 0.4·0.8 − 0.4·0.10 = 0.28 = 7/25: the profile height at t = 0 minus
the full heel-cup depth, which is maximal at the centerline x = 0. -/
theorem heel_cup_extremum (N : ℕ) :
    (⟨0, 7/25, 0⟩ : P3) ∈ (computeInsoleGeometry N ⟨1, 2, 2/5, true⟩).top
    ∧ ∀ v ∈ (computeInsoleGeometry N ⟨1, 2, 2/5, true⟩).top,
        v.x = 0 → v.z = 0 → v.y = 7/25 := by
  have htop : (computeInsoleGeometry N ⟨1, 2, 2/5, true⟩).top
      = (outlineSamples N 1 2).map
          (fun p => sculptVertex (1/1000000) 1 2 (2/5) ⟨p.x, 2/5, p.z⟩) := by
    show ((outlineSamples N 1 2).map (fun p : P2 => (⟨p.x, 2/5, p.z⟩ : P3))).map
        (sculptVertex (1/1000000) 1 2 (2/5)) = _
    rw [List.map_map]
    rfl
  have hy00 : sculptTargetY 1 2 (2/5) 0 0 = 7/25 := by
    norm_num [sculptTargetY, profileTargetY, clamp, lerp, min_def, max_def]
  have hval : sculptVertex (1/1000000) 1 2 (2/5) (⟨0, 2/5, 0⟩ : P3) = ⟨0, 7/25, 0⟩ := by
    rw [sculptVertex_of_near (1/1000000) 1 2 (2/5) ⟨0, 2/5, 0⟩ (by norm_num)]
    exact P3.ext rfl hy00 rfl
  constructor
  · rw [htop]
    exact List.mem_map.mpr ⟨⟨0, 0⟩, heel_mem_outlineSamples N 1 2, hval⟩
  · intro v hv hx hz
    rw [htop] at hv
    simp only [List.mem_map] at hv
    obtain ⟨p, hp, rfl⟩ := hv
    rw [sculptVertex_of_near (1/1000000) 1 2 (2/5) ⟨p.x, 2/5, p.z⟩ (by norm_num)] at hx hz ⊢
    have hx2 : p.x = 0 := hx
    have hz2 : p.z = 0 := hz
    show sculptTargetY 1 2 (2/5) p.x p.z = 7/25
    rw [hx2, hz2, hy00]

/-! ### The piecewise thickness profile -/

/-- C4: for every top-cap vertex, with t = clamp(z/length, 0, 1), the
sculpted height before the heel-cup subtraction equals the piecewise-linear
profile with breakpoints 0, 0.3, 0.7, 1.0 mapping to 0.8·thickness,
1.0·thickness, 0.6·thickness, 0.2·thickness, interpolated linearly on
[0, 0.3), [0.3, 0.7) and [0.7, 1]. -/
theorem relief_profile_piecewise (T t : ℚ) (ht0 : 0 ≤ t) (ht1 : t ≤ 1) :
    (t < 3/10 → profileTargetY T t = lerp (T * (8/10)) (T * 1) (t / (3/10)))
    ∧ (3/10 ≤ t → t < 7/10 →
        profileTargetY T t = lerp (T * 1) (T * (6/10)) ((t - 3/10) / (4/10)))
    ∧ (7/10 ≤ t → profileTargetY T t = lerp (T * (6/10)) (T * (2/10)) ((t - 7/10) / (3/10)))
    ∧ profileTargetY T 0 = T * (8/10)
    ∧ profileTargetY T (3/10) = T * 1
    ∧ profileTargetY T (7/10) = T * (6/10)
    ∧ profileTargetY T 1 = T * (2/10) := by
  refine ⟨?_, ?_, ?_, ?_, ?_, ?_, ?_⟩
  · intro h
    simp only [profileTargetY]
    rw [if_pos h]
  · intro h1 h2
    simp only [profileTargetY]
    rw [if_neg (not_lt.mpr h1), if_pos h2]
  · intro h
    simp only [profileTargetY]
    rw [if_neg (not_lt.mpr (by linarith)), if_neg (not_lt.mpr h)]
  · norm_num [profileTargetY, lerp]
  · norm_num [profileTargetY, lerp]
  · norm_num [profileTargetY, lerp]
  · norm_num [profileTargetY, lerp]

/-- Witness for relief_profile_piecewise at T = 2/5, t = 1/2. -/
theorem relief_profile_piecewise_witness :
    (0:ℚ) ≤ 1/2 ∧ (1:ℚ)/2 ≤ 1
    ∧ (((1:ℚ)/2 < 3/10 →
          profileTargetY (2/5) (1/2) = lerp ((2:ℚ)/5 * (8/10)) ((2:ℚ)/5 * 1) ((1/2) / (3/10)))
       ∧ ((3:ℚ)/10 ≤ 1/2 → (1:ℚ)/2 < 7/10 →
          profileTargetY (2/5) (1/2)
            = lerp ((2:ℚ)/5 * 1) ((2:ℚ)/5 * (6/10)) ((1/2 - 3/10) / (4/10)))
       ∧ ((7:ℚ)/10 ≤ 1/2 →
          profileTargetY (2/5) (1/2)
            = lerp ((2:ℚ)/5 * (6/10)) ((2:ℚ)/5 * (2/10)) ((1/2 - 7/10) / (3/10)))
       ∧ profileTargetY (2/5) 0 = (2:ℚ)/5 * (8/10)
       ∧ profileTargetY (2/5) (3/10) = (2:ℚ)/5 * 1
       ∧ profileTargetY (2/5) (7/10) = (2:ℚ)/5 * (6/10)
       ∧ profileTargetY (2/5) 1 = (2:ℚ)/5 * (2/10)) :=
  ⟨by norm_num, by norm_num,
   relief_profile_piecewise (2/5) (1/2) (by norm_num) (by norm_num)⟩

/-! ### Range of the sculpted heights -/

theorem profileTargetY_bounds (T t : ℚ) (hT : 0 < T) (ht0 : 0 ≤ t) (ht1 : t ≤ 1) :
    T * (2/10) ≤ profileTargetY T t ∧ profileTargetY T t ≤ T := by
  simp only [profileTargetY, lerp]
  split_ifs with h1 h2
  · have hu0 : 0 ≤ t / (3/10) := by positivity
    have hu1 : t / (3/10) ≤ 1 := by
      rw [div_le_one (by norm_num)]
      linarith
    constructor <;>
      nlinarith [mul_nonneg hT.le hu0, mul_nonneg hT.le (sub_nonneg.mpr hu1)]
  · have h1a : 3/10 ≤ t := not_lt.mp h1
    have hu0 : 0 ≤ (t - 3/10) / (4/10) := div_nonneg (by linarith) (by norm_num)
    have hu1 : (t - 3/10) / (4/10) ≤ 1 := by
      rw [div_le_one (by norm_num)]
      linarith
    constructor <;>
      nlinarith [mul_nonneg hT.le hu0, mul_nonneg hT.le (sub_nonneg.mpr hu1)]
  · have h2a : 7/10 ≤ t := not_lt.mp h2
    have hu0 : 0 ≤ (t - 7/10) / (3/10) := div_nonneg (by linarith) (by norm_num)
    have hu1 : (t - 7/10) / (3/10) ≤ 1 := by
      rw [div_le_one (by norm_num)]
      linarith
    constructor <;>
      nlinarith [mul_nonneg hT.le hu0, mul_nonneg hT.le (sub_nonneg.mpr hu1)]

theorem profileTargetY_heel_lb (T t : ℚ) (hT : 0 < T) (ht0 : 0 ≤ t) (ht : t < 3/10) :
    T * (8/10) ≤ profileTargetY T t := by
  simp only [profileTargetY, lerp]
  rw [if_pos ht]
  have hu0 : 0 ≤ t / (3/10) := by positivity
  nlinarith [mul_nonneg hT.le hu0]

/-- C10: for every valid Dimensions with detailedRelief = true, every
height written by the sculptor lies in [0.2·thickness, 1.0·thickness] and
is strictly positive: the heel-cup subtraction, at most 0.10·thickness and
applied only where t < 0.15 where the profile is at least 0.8·thickness,
never drives a written height below 0.7·thickness, so the sculpted top
surface never reaches or crosses the bottom cap. -/
theorem sculpted_height_bounds (w l T x z : ℚ) (hw : 0 < w) (hl : 0 < l) (hT : 0 < T) :
    T * (2/10) ≤ sculptTargetY w l T x z
    ∧ sculptTargetY w l T x z ≤ T
    ∧ 0 < sculptTargetY w l T x z := by
  have hEq : sculptTargetY w l T x z
      = (if clamp (z / l) 0 1 < 15/100
          then profileTargetY T (clamp (z / l) 0 1) - T * (1/10) * (1 - min (|x| / (w/2)) 1)
          else profileTargetY T (clamp (z / l) 0 1)) := rfl
  set t := clamp (z / l) 0 1 with htdef
  have ht0 : 0 ≤ t := by
    rw [htdef]
    exact le_max_left _ _
  have ht1 : t ≤ 1 := by
    rw [htdef]
    exact max_le zero_le_one (min_le_right _ _)
  have hb := profileTargetY_bounds T t hT ht0 ht1
  rw [hEq]
  split_ifs with hc
  · have h8 : T * (8/10) ≤ profileTargetY T t :=
      profileTargetY_heel_lb T t hT ht0 (by linarith)
    have hm0 : 0 ≤ min (|x| / (w / 2)) 1 :=
      le_min (div_nonneg (abs_nonneg x) (by linarith)) zero_le_one
    have hm1 : min (|x| / (w / 2)) 1 ≤ 1 := min_le_right _ _
    have hcup0 : 0 ≤ T * (1/10) * (1 - min (|x| / (w / 2)) 1) :=
      mul_nonneg (by positivity) (by linarith)
    have hcup1 : T * (1/10) * (1 - min (|x| / (w / 2)) 1) ≤ T * (1/10) := by
      nlinarith [mul_nonneg (mul_nonneg hT.le (by norm_num : (0:ℚ) ≤ 1/10)) hm0]
    exact ⟨by linarith, by linarith, by linarith⟩
  · exact ⟨hb.1, hb.2, by nlinarith [hb.1]⟩

/-- Witness for sculpted_height_bounds at width 1, length 2,
thickness 2/5, x = 0, z = 0. -/
theorem sculpted_height_bounds_witness :
    (0:ℚ) < 1 ∧ (0:ℚ) < 2 ∧ (0:ℚ) < 2/5
    ∧ ((2:ℚ)/5 * (2/10) ≤ sculptTargetY 1 2 (2/5) 0 0
       ∧ sculptTargetY 1 2 (2/5) 0 0 ≤ 2/5
       ∧ 0 < sculptTargetY 1 2 (2/5) 0 0) :=
  ⟨by norm_num, by norm_num, by norm_num,
   sculpted_height_bounds 1 2 (2/5) 0 0 (by norm_num) (by norm_num) (by norm_num)⟩

/-! ### No dimension validation: width = 0 still yields a mesh -/

theorem bezier_x_zero {s : Cubic} (h0 : s.p0.x = 0) (h1 : s.p1.x = 0) (h2 : s.p2.x = 0)
    (h3 : s.p3.x = 0) (u : ℚ) : (bezier s u).x = 0 := by
  simp [bezier, h0, h1, h2, h3]

theorem outlineSamples_x_zero (N : ℕ) (l : ℚ) :
    ∀ p ∈ outlineSamples N 0 l, p.x = 0 := by
  intro p hp
  rcases List.mem_flatMap.mp hp with ⟨s, hs, hps⟩
  simp only [outlineSegments, List.mem_cons, List.not_mem_nil, or_false] at hs
  simp only [sampleSegment, List.mem_map] at hps
  obtain ⟨i, hi, rfl⟩ := hps
  rcases hs with rfl | rfl | rfl | rfl | rfl | rfl <;>
    apply bezier_x_zero <;>
      norm_num [segHeelArch, segArchBall, segBallToe, segToeBallM, segBallMArchM, segArchMHeel]

theorem length_outlineSamples (N : ℕ) (w l : ℚ) :
    (outlineSamples N w l).length = 6 * (N + 1) := by
  simp [outlineSamples, outlineSegments, sampleSegment]
  ring

theorem flatMap_pair_length {α β : Type} (f g : α → β) (o : List α) :
    (o.flatMap fun a => [f a, g a]).length = 2 * o.length := by
  induction o with
  | nil => rfl
  | cons a as ih =>
    simp [List.flatMap_cons, ih]
    ring

theorem length_extrude_positions (o : List P2) (T : ℚ) :
    (extrude o T).positions.length = 4 * o.length := by
  have hs : (o.flatMap fun p => [(⟨p.x, 0, p.z⟩ : P3), ⟨p.x, T, p.z⟩]).length = 2 * o.length :=
    flatMap_pair_length _ _ o
  simp only [Mesh.positions, extrude, List.length_append, List.length_map]
  rw [hs]
  ring

/-- C2 counterexample: at width = 0, length = 2, thickness = 2/5 (with
tessellation N = 1) a mesh of 48 vertices IS produced, so construction is
not refused and no typed failure is returned. -/
theorem width_zero_mesh_produced :
    (computeInsoleGeometry 1 ⟨0, 2, 2/5, false⟩).positions.length = 48 := by
  have hEq : computeInsoleGeometry 1 ⟨0, 2, 2/5, false⟩
      = extrude (outlineSamples 1 0 2) (2/5) := rfl
  rw [hEq, length_extrude_positions, length_outlineSamples]

/-- C2 amended: for width = 0 the function performs no dimension
validation: it still produces a full mesh of 24·(N+1) vertices; the mesh is
degenerate, every vertex lying on the plane x = 0. The code has no
InvalidDimension failure path. -/
theorem width_zero_no_rejection (N : ℕ) (l T : ℚ) (hl : 0 < l) (hT : 0 < T) :
    (computeInsoleGeometry N ⟨0, l, T, false⟩).positions.length = 24 * (N + 1)
    ∧ ∀ v ∈ (computeInsoleGeometry N ⟨0, l, T, false⟩).positions, v.x = 0 := by
  have hEq : computeInsoleGeometry N ⟨0, l, T, false⟩
      = extrude (outlineSamples N 0 l) T := rfl
  constructor
  · rw [hEq, length_extrude_positions, length_outlineSamples]
    ring
  · intro v hv
    rw [hEq] at hv
    simp only [Mesh.positions, extrude, List.mem_append, List.mem_map, List.mem_flatMap,
      List.mem_cons, List.not_mem_nil, or_false] at hv
    rcases hv with (⟨p, hp, rfl⟩ | ⟨p, hp, rfl⟩) | ⟨p, hp, hq⟩
    · exact outlineSamples_x_zero N l p hp
    · exact outlineSamples_x_zero N l p hp
    · rcases hq with rfl | rfl <;> exact outlineSamples_x_zero N l p hp

/-- Witness for width_zero_no_rejection at N = 3, length 2, thickness 2/5. -/
theorem width_zero_no_rejection_witness :
    (0:ℚ) < 2 ∧ (0:ℚ) < 2/5
    ∧ ((computeInsoleGeometry 3 ⟨0, 2, 2/5, false⟩).positions.length = 24 * (3 + 1)
       ∧ ∀ v ∈ (computeInsoleGeometry 3 ⟨0, 2, 2/5, false⟩).positions, v.x = 0) :=
  ⟨by norm_num, by norm_num, width_zero_no_rejection 3 2 (2/5) (by norm_num) (by norm_num)⟩

/-! ### The two copies of computeInsoleGeometry -/

theorem mem_positions_of_bottom {m : Mesh} {v : P3} (h : v ∈ m.bottom) : v ∈ m.positions :=
  List.mem_append_left _ (List.mem_append_left _ h)

theorem mem_positions_of_top {m : Mesh} {v : P3} (h : v ∈ m.top) : v ∈ m.positions :=
  List.mem_append_left _ (List.mem_append_right _ h)

theorem mem_positions_of_side {m : Mesh} {v : P3} (h : v ∈ m.side) : v ∈ m.positions :=
  List.mem_append_right _ h

theorem sculptVertex_tol_agree (w l T : ℚ) (hT : 1/100000 ≤ T) (v : P3)
    (hv : v.y = 0 ∨ v.y = T) :
    sculptVertex (1/100000) w l T v = sculptVertex (1/1000000) w l T v := by
  rcases hv with h | h
  · have habs : |v.y - T| = T := by
      rw [h, zero_sub, abs_neg, abs_of_pos (by linarith)]
    rw [sculptVertex_of_far (1/100000) w l T v (by rw [habs]; exact not_lt.mpr hT),
        sculptVertex_of_far (1/1000000) w l T v (by rw [habs]; exact not_lt.mpr (by linarith))]
  · have habs : |v.y - T| = 0 := by
      rw [h, sub_self, abs_zero]
    rw [sculptVertex_of_near (1/100000) w l T v (by rw [habs]; norm_num),
        sculptVertex_of_near (1/1000000) w l T v (by rw [habs]; norm_num)]

/-- C9 amended: the two copies of computeInsoleGeometry (tolerance 1e-5 in
the older file, 1e-6 in the current one) produce equal output geometry for
every input with thickness ≥ 1e-5: then both tolerances select exactly the
vertices carrying the value thickness. For 1e-6 ≤ thickness < 1e-5 the
copies diverge, because the older tolerance also captures the bottom cap. -/
theorem old_new_agree (N : ℕ) (p : InsoleParams) (h : 1/100000 ≤ p.thickness) :
    computeInsoleGeometryOld N p = computeInsoleGeometry N p := by
  rcases p with ⟨w, l, T, r⟩
  have hT : 1/100000 ≤ T := h
  cases r
  · exact Eq.trans
      (rfl : computeInsoleGeometryOld N ⟨w, l, T, false⟩ = extrude (outlineSamples N w l) T)
      (rfl : extrude (outlineSamples N w l) T = computeInsoleGeometry N ⟨w, l, T, false⟩)
  · show recomputeNormals (sculptMesh (1/100000) w l T (extrude (outlineSamples N w l) T))
        = recomputeNormals (sculptMesh (1/1000000) w l T (extrude (outlineSamples N w l) T))
    have hagree : ∀ v ∈ (extrude (outlineSamples N w l) T).positions,
        sculptVertex (1/100000) w l T v = sculptVertex (1/1000000) w l T v :=
      fun v hv => sculptVertex_tol_agree w l T hT v (y_mem_extrude hv)
    have hmesh : sculptMesh (1/100000) w l T (extrude (outlineSamples N w l) T)
        = sculptMesh (1/1000000) w l T (extrude (outlineSamples N w l) T) := by
      apply Mesh.ext
      · exact List.map_congr_left fun v hv => hagree v (mem_positions_of_bottom hv)
      · exact List.map_congr_left fun v hv => hagree v (mem_positions_of_top hv)
      · exact List.map_congr_left fun v hv => hagree v (mem_positions_of_side hv)
      · rfl
      · rfl
    rw [hmesh]

/-- Witness for old_new_agree at N = 1, width 1, length 2, thickness 2/5,
detailedRelief = true. -/
theorem old_new_agree_witness :
    (1:ℚ)/100000 ≤ (InsoleParams.mk 1 2 (2/5) true).thickness
    ∧ computeInsoleGeometryOld 1 ⟨1, 2, 2/5, true⟩
        = computeInsoleGeometry 1 ⟨1, 2, 2/5, true⟩ :=
  ⟨by norm_num, old_new_agree 1 ⟨1, 2, 2/5, true⟩ (by norm_num)⟩

/-- C9 counterexample: at thickness = 1/200000 (between the two
tolerances), length 2, width 1, detailedRelief = true, the two copies
produce different meshes: the older 1e-5 tolerance also sculpts the
bottom-cap vertices (the heel bottom vertex moves from y = 0 to
y = 0.7·thickness = 7/2000000), the current 1e-6 tolerance leaves them. -/
theorem old_new_tolerance_divergence :
    computeInsoleGeometryOld 1 ⟨1, 2, 1/200000, true⟩
      ≠ computeInsoleGeometry 1 ⟨1, 2, 1/200000, true⟩ := by
  have hhead : (outlineSamples 1 1 2).head? = some ⟨0, 0⟩ := by
    simp only [outlineSamples, outlineSegments, List.flatMap_cons, sampleSegment,
      show List.range 2 = [0, 1] from rfl, List.map_cons, List.map_nil,
      List.cons_append, List.head?_cons, Option.some.injEq]
    norm_num [bezier, segHeelArch]
  have hold : (computeInsoleGeometryOld 1 ⟨1, 2, 1/200000, true⟩).bottom.head?
      = some ⟨0, 7/2000000, 0⟩ := by
    have hb : (computeInsoleGeometryOld 1 ⟨1, 2, 1/200000, true⟩).bottom
        = ((outlineSamples 1 1 2).map (fun p : P2 => (⟨p.x, 0, p.z⟩ : P3))).map
            (sculptVertex (1/100000) 1 2 (1/200000)) := rfl
    rw [hb, List.map_map, List.head?_map, hhead, Option.map_some']
    rw [show (sculptVertex (1/100000) 1 2 (1/200000) ∘ fun p : P2 => (⟨p.x, 0, p.z⟩ : P3))
          (⟨0, 0⟩ : P2)
        = sculptVertex (1/100000) 1 2 (1/200000) ⟨0, 0, 0⟩ from rfl]
    rw [sculptVertex_of_near (1/100000) 1 2 (1/200000) ⟨0, 0, 0⟩ (by norm_num [abs_of_pos])]
    have : sculptTargetY 1 2 (1/200000) 0 0 = 7/2000000 := by
      norm_num [sculptTargetY, profileTargetY, clamp, lerp, min_def, max_def]
    rw [show (⟨(0:ℚ), sculptTargetY 1 2 (1/200000) 0 0, 0⟩ : P3)
        = ⟨0, 7/2000000, 0⟩ from P3.ext rfl this rfl]
  have hnew : (computeInsoleGeometry 1 ⟨1, 2, 1/200000, true⟩).bottom.head?
      = some ⟨0, 0, 0⟩ := by
    have hb : (computeInsoleGeometry 1 ⟨1, 2, 1/200000, true⟩).bottom
        = ((outlineSamples 1 1 2).map (fun p : P2 => (⟨p.x, 0, p.z⟩ : P3))).map
            (sculptVertex (1/1000000) 1 2 (1/200000)) := rfl
    rw [hb, List.map_map, List.head?_map, hhead, Option.map_some']
    rw [show (sculptVertex (1/1000000) 1 2 (1/200000) ∘ fun p : P2 => (⟨p.x, 0, p.z⟩ : P3))
          (⟨0, 0⟩ : P2)
        = sculptVertex (1/1000000) 1 2 (1/200000) ⟨0, 0, 0⟩ from rfl]
    rw [sculptVertex_of_far (1/1000000) 1 2 (1/200000) ⟨0, 0, 0⟩ (by norm_num [abs_of_pos])]
  intro hEq
  rw [hEq, hnew] at hold
  have h7 : (7:ℚ)/2000000 = 0 := by
    have hinj := (Option.some.injEq _ _).mp hold
    exact ((P3.mk.injEq _ _ _ _ _ _).mp hinj).2.1.symm
  norm_num at h7

end Insole
